import Mathlib

/-!
Formal model of the card-catalog crawler in `src/api-server/scraper.py`.

Pure helpers (`parse_int_safe`, `extract_set_code`,
`extract_card_number_from_img`, `map_card_detail`, `find_set_name`) are
translated directly; the stateful pieces (database upsert, image download,
the by-identifier run, the by-set/all paging loop) are modelled by explicit
state passing: the database is a list of stored rows, the filesystem a list
of path/content pairs, and the remote service a record of functions
supplying search results, detail payloads and download outcomes.

Python dynamic values relevant to the crawler are modelled by `PyVal`
(None / int / str); `int(...)` raising `ValueError` is modelled as
`pyStrToInt` returning `none`.  All string processing is over ASCII-compatible
`List Char` data; Python's `\d` (which also accepts non-ASCII decimal digits)
is modelled as the ASCII digits, which is exact on the URL/identifier inputs
the crawler handles.
-/

/-- ASCII whitespace as stripped by Python's `str.strip` and `int`. -/
def isWs (c : Char) : Bool :=
  c = ' ' || c = '\t' || c = '\n' || c = '\r' || c = '\x0b' || c = '\x0c'

def isDigit09 (c : Char) : Bool := '0' ≤ c && c ≤ '9'

def isUpperAZ (c : Char) : Bool := 'A' ≤ c && c ≤ 'Z'

def digitVal (c : Char) : Nat := c.toNat - 48

/-- Digit-run parser for Python `int(str)`: after the first digit, single
underscores are permitted strictly between digits (CPython's grammar). -/
def pyDigitsGo (acc : Nat) : List Char → Option Nat
  | [] => some acc
  | '_' :: d :: rest =>
      if isDigit09 d then pyDigitsGo (acc * 10 + digitVal d) rest else none
  | c :: rest =>
      if isDigit09 c then pyDigitsGo (acc * 10 + digitVal c) rest else none

def pyDigits : List Char → Option Nat
  | [] => none
  | c :: rest => if isDigit09 c then pyDigitsGo (digitVal c) rest else none

/-- Model of Python `int(s)` on a string: strip whitespace, optional sign,
digit run.  Returns `none` where CPython raises `ValueError`. -/
def pyStrToInt (s : String) : Option Int :=
  let cs := ((s.data.dropWhile isWs).reverse.dropWhile isWs).reverse
  match cs with
  | [] => none
  | '-' :: rest => (pyDigits rest).map (fun n => -(n : Int))
  | '+' :: rest => (pyDigits rest).map (fun n => (n : Int))
  | other => (pyDigits other).map (fun n => (n : Int))

/-- The fragment of Python values the crawler's numeric fields range over. -/
inductive PyVal where
  | vNone : PyVal
  | vInt : Int → PyVal
  | vStr : String → PyVal
deriving DecidableEq

/-- `parse_int_safe` (scraper.py lines 150-157): `None`, `"-"` and `""`
map to absent; otherwise `int(val)` with `ValueError`/`TypeError` caught. -/
def parse_int_safe : PyVal → Option Int
  | PyVal.vNone => none
  | PyVal.vInt n => some n
  | PyVal.vStr s => if s = "-" ∨ s = "" then none else pyStrToInt s

/-- Python `str.upper` on the ASCII range. -/
def pyUpper (s : String) : String := ⟨s.data.map Char.toUpper⟩

/-- Python `str.strip`. -/
def pyStrip (s : String) : String :=
  ⟨((s.data.dropWhile isWs).reverse.dropWhile isWs).reverse⟩

/-- Python `s.replace(c, "")` for a single-character needle: drop every
occurrence of `c`. -/
def pyDel (c : Char) (s : String) : String := ⟨s.data.filter (fun x => x ≠ c)⟩

/-- Characters after the last occurrence of `c` (Python `rsplit(c,1)[-1]`). -/
def afterLastChar (c : Char) (cs : List Char) : List Char :=
  (cs.reverse.takeWhile (fun x => x ≠ c)).reverse

/-- Characters before the last occurrence of `c` (Python `rsplit(c,1)[0]`). -/
def beforeLastChar (c : Char) (cs : List Char) : List Char :=
  ((cs.reverse.dropWhile (fun x => x ≠ c)).drop 1).reverse

def hexVal (c : Char) : Option Nat :=
  if isDigit09 c then some (c.toNat - 48)
  else if 'a' ≤ c ∧ c ≤ 'f' then some (c.toNat - 87)
  else if 'A' ≤ c ∧ c ≤ 'F' then some (c.toNat - 55)
  else none

/-- Model of `urllib.parse.unquote` on ASCII data: `%XX` hex escapes decode
to the corresponding character, malformed escapes pass through. -/
def unquoteChars : List Char → List Char
  | [] => []
  | '%' :: a :: b :: rest =>
      match hexVal a, hexVal b with
      | some x, some y => Char.ofNat (16 * x + y) :: unquoteChars rest
      | _, _ => '%' :: unquoteChars (a :: b :: rest)
  | c :: rest => c :: unquoteChars rest

/-- Attempt of the regex `[A-Z]{1,5}\d*-\d{2,3}(?:_\d+)?` anchored at the
head of `cs` (the character classes are pairwise disjoint, so the
backtracking regex is equivalent to this greedy deterministic scan). -/
def matchCardPatAt (cs : List Char) : Option (List Char) :=
  let p1 := cs.span isUpperAZ
  let letters := p1.1
  if letters.length = 0 ∨ 5 < letters.length then none
  else
    let p2 := p1.2.span isDigit09
    let digs := p2.1
    match p2.2 with
    | '-' :: r3 =>
        let p3 := r3.span isDigit09
        let d2 := p3.1
        if d2.length < 2 then none
        else
          let taken := d2.take 3
          let after := d2.drop 3 ++ p3.2
          let suffix :=
            match after with
            | '_' :: ds =>
                let sd := ds.takeWhile isDigit09
                if sd.isEmpty then [] else '_' :: sd
            | _ => []
          some (letters ++ digs ++ '-' :: (taken ++ suffix))
    | _ => none

/-- `re.search` for the card-number pattern: leftmost match. -/
def searchCardPat : List Char → Option (List Char)
  | [] => none
  | c :: cs =>
      match matchCardPatAt (c :: cs) with
      | some m => some m
      | none => searchCardPat cs

/-- `extract_card_number_from_img` (scraper.py lines 134-147): take the final
path segment, URL-decode it, and search for the card-number pattern. -/
def extract_card_number_from_img (img_url : String) : Option String :=
  let filename :=
    if '/' ∈ img_url.data then afterLastChar '/' img_url.data else img_url.data
  (searchCardPat (unquoteChars filename)).map (fun l => ⟨l⟩)

/-- `extract_set_code` (scraper.py lines 127-131). -/
def extract_set_code (card_number : String) : String :=
  if '-' ∈ card_number.data then ⟨beforeLastChar '-' card_number.data⟩
  else card_number

/-- Python `"/".join`. -/
def joinSlash : List String → String
  | [] => ""
  | [s] => s
  | s :: rest => s ++ "/" ++ joinSlash rest

/-- The raw detail payload fragment `map_card_detail` reads.  `none` on a
string field models an absent key (so `info.get(k, "")` yields `""`);
numeric slots carry a `PyVal` (absent key and JSON null both behave as
`vNone` under `parse_int_safe`). -/
structure RawInfo where
  cardNumber : Option String
  cardAttribute : Option (List String)
  cardType : Option String
  cardLife : PyVal
  cardPower : PyVal
  cardAttack : PyVal
  cardName : Option String
  cardColor : Option String
  cardTextDesc : Option String
  cardTrigger : Option String
  cardFeatures : Option String
  cardRarity : Option String
  cardImg : Option String
deriving DecidableEq

/-- The dict built by `map_card_detail` (scraper.py lines 160-196). -/
structure MappedCard where
  card_number : String
  name : String
  name_cn : String
  card_type : String
  color : String
  cost : Option Int
  power : Option Int
  counter : Option Int
  life : Option Int
  attr : String          -- the source's `attribute` column; `attribute` is a Lean keyword
  effect : String
  trigger : String
  trait : String
  rarity : String
  set_code : String
  image_url : String
deriving DecidableEq

/-- `map_card_detail` (scraper.py lines 160-196): the shared numeric field
`cardLife` is routed to `life` for the leader kind and to `cost` otherwise. -/
def map_card_detail (info : RawInfo) : MappedCard :=
  let card_number := info.cardNumber.getD ""
  let attrJoined := joinSlash (info.cardAttribute.getD [])
  let card_type := info.cardType.getD ""
  let card_life := parse_int_safe info.cardLife
  let cost := if card_type = "领袖" then none else card_life
  let life := if card_type = "领袖" then card_life else none
  { card_number := card_number
    name := info.cardName.getD ""
    name_cn := info.cardName.getD ""
    card_type := card_type
    color := info.cardColor.getD ""
    cost := cost
    power := parse_int_safe info.cardPower
    counter := parse_int_safe info.cardAttack
    life := life
    attr := attrJoined
    effect := info.cardTextDesc.getD ""
    trigger := info.cardTrigger.getD ""
    trait := info.cardFeatures.getD ""
    rarity := info.cardRarity.getD ""
    set_code := extract_set_code card_number
    image_url := info.cardImg.getD "" }

/-- A persisted `Card` row (app/models.py), restricted to the columns the
crawler writes. -/
structure StoredCard where
  card_number : String
  name : String
  name_cn : String
  card_type : String
  color : String
  cost : Option Int
  power : Option Int
  counter : Option Int
  life : Option Int
  attr : String          -- the source's `attribute` column; `attribute` is a Lean keyword
  effect : String
  trigger : String
  trait : String
  rarity : String
  set_code : String
  image_url : String
  image_local : Option String
deriving DecidableEq

abbrev DB := List StoredCard

/-- Lookup by natural key (`select(Card).where(Card.card_number == ...)`). -/
def dbFind (db : DB) (key : String) : Option StoredCard :=
  db.find? (fun c => c.card_number == key)

/-- Field update used by the `for key, val in card_data.items(): if val is
not None: setattr(...)` loop on an optional column. -/
def updOpt (newVal oldVal : Option Int) : Option Int :=
  match newVal with
  | some v => some v
  | none => oldVal

/-- Python truthiness of `image_local` in `if image_local:` — `None` and the
empty string are both falsy. -/
def strTruthy : Option String → Bool
  | some s => !(s == "")
  | none => false

/-- The update branch of `save_card_to_db` (scraper.py lines 209-217): every
non-`None` incoming value overwrites; `image_local` is set only if truthy. -/
def applyUpdate (c : StoredCard) (cd : MappedCard) (il : Option String) : StoredCard :=
  { card_number := cd.card_number
    name := cd.name
    name_cn := cd.name_cn
    card_type := cd.card_type
    color := cd.color
    cost := updOpt cd.cost c.cost
    power := updOpt cd.power c.power
    counter := updOpt cd.counter c.counter
    life := updOpt cd.life c.life
    attr := cd.attr
    effect := cd.effect
    trigger := cd.trigger
    trait := cd.trait
    rarity := cd.rarity
    set_code := cd.set_code
    image_url := cd.image_url
    image_local := if strTruthy il then il else c.image_local }

/-- The insert branch of `save_card_to_db` (scraper.py lines 219-225). -/
def newStored (cd : MappedCard) (il : Option String) : StoredCard :=
  { card_number := cd.card_number
    name := cd.name
    name_cn := cd.name_cn
    card_type := cd.card_type
    color := cd.color
    cost := cd.cost
    power := cd.power
    counter := cd.counter
    life := cd.life
    attr := cd.attr
    effect := cd.effect
    trigger := cd.trigger
    trait := cd.trait
    rarity := cd.rarity
    set_code := cd.set_code
    image_url := cd.image_url
    image_local := if strTruthy il then il else none }

/-- Replace the first row whose `card_number` matches the incoming record. -/
def dbUpdate : DB → MappedCard → Option String → DB
  | [], _, _ => []
  | c :: rest, cd, il =>
      if c.card_number == cd.card_number then applyUpdate c cd il :: rest
      else c :: dbUpdate rest cd il

/-- `save_card_to_db` (scraper.py lines 202-225): upsert keyed on
`card_number`; returns `true` for Created, `false` for Updated. -/
def save_card_to_db (db : DB) (cd : MappedCard) (il : Option String) : DB × Bool :=
  match dbFind db cd.card_number with
  | some _ => (dbUpdate db cd il, false)
  | none => (db ++ [newStored cd il], true)

/-- One entry of the remote set catalog (`fetch_sets` items): the raw display
name containing a bracketed code. -/
structure SetEntry where
  name : String
deriving DecidableEq

/-- `re.search` for `【([^】]+)】`: the first nonempty bracketed substring. -/
def bracketScan : List Char → Option (List Char)
  | [] => none
  | c :: cs =>
      if c = '【' then
        let p := cs.span (fun x => x ≠ '】')
        if p.1 ≠ [] ∧ p.2 ≠ [] then some p.1 else bracketScan cs
      else bracketScan cs

def bracketCode (name : String) : Option String :=
  (bracketScan name.data).map (fun l => ⟨l⟩)

/-- Loop body of `find_set_name` (scraper.py lines 238-252), checking each
entry in order: normalized equality or exact-bracket match, then the extra
`replace("C","").replace("-","")` fallback. -/
def findLoop : List SetEntry → String → Option String
  | [], _ => none
  | s :: rest, code_upper =>
      match bracketCode s.name with
      | none => findLoop rest code_upper
      | some inner =>
          if pyDel 'C' (pyDel '-' inner) == pyDel 'C' (pyDel '-' code_upper)
              || pyUpper inner == code_upper then some s.name
          else if pyDel '-' (pyDel 'C' inner) == pyDel '-' code_upper then some s.name
          else findLoop rest code_upper

/-- `find_set_name` (scraper.py lines 231-253). -/
def find_set_name (sets : List SetEntry) (set_code : String) : Option String :=
  findLoop sets (pyUpper set_code)

/-- Modelled from the spec's words for claim C8: the first set whose
bracketed code matches exactly, or matches after removing hyphens and the
letter `C` from both codes. -/
def specEntryMatch (code_upper : String) (name : String) : Bool :=
  match bracketCode name with
  | none => false
  | some inner =>
      pyUpper inner == code_upper
        || pyDel 'C' (pyDel '-' inner) == pyDel 'C' (pyDel '-' code_upper)

/-- Modelled from the spec's words for claim C8 (`matchSetName`). -/
def matchSetName_spec (sets : List SetEntry) (set_code : String) : Option String :=
  (sets.find? (fun s => specEntryMatch (pyUpper set_code) s.name)).map SetEntry.name

/-- One page of `fetch_card_list` as the paging loops read it: the item
list (abstracted to remote ids) and the reported `totalPage`. -/
structure PageData where
  list : List Nat
  totalPage : Nat
deriving DecidableEq

/-- The halting test of the by-set paging loop, which re-reads `totalPage`
from every fetched page (scraper.py line 361): empty page, or the page
index has reached the page's own reported total page count. -/
def stopAt (fetch : Nat → PageData) (p : Nat) : Bool :=
  (fetch p).list.isEmpty || decide ((fetch p).totalPage ≤ p)

/-- The halting test of the full-catalog paging loop, whose `total_pages`
is read once from the pre-loop page-1 fetch (scraper.py line 424) and never
re-read: empty page, or the page index has reached that fixed count. -/
def stopAtFixed (fetch : Nat → PageData) (totalPages p : Nat) : Bool :=
  (fetch p).list.isEmpty || decide (totalPages ≤ p)

/-- In-order deduplication by remote id (`seen_ids`). -/
def dedupAppend (seen : List Nat) (ids : List Nat) : List Nat :=
  ids.foldl (fun acc i => if i ∈ acc then acc else acc ++ [i]) seen

/-- The `while True` paging loop of `scrape_by_set` (scraper.py lines
357-403): fetch a page, stop on an empty item list, process its items, stop
when `page >= total_pages` with `total_pages` re-read from the current
page's data each iteration, else advance.  Fuel makes the model total;
`none` marks fuel exhaustion, `some (seen, p)` halting at page `p`. -/
def pagingAux (fetch : Nat → PageData) : Nat → Nat → List Nat → Option (List Nat × Nat)
  | 0, _, _ => none
  | Nat.succ fuel, page, seen =>
      let pd := fetch page
      if pd.list.isEmpty then some (seen, page)
      else
        let seen2 := dedupAppend seen pd.list
        if pd.totalPage ≤ page then some (seen2, page)
        else pagingAux fetch fuel (page + 1) seen2

def pagingLoop (fetch : Nat → PageData) (fuel : Nat) : Option (List Nat × Nat) :=
  pagingAux fetch fuel 1 []

/-- The `while True` paging loop of `scrape_all` (scraper.py lines 428-469):
identical page/empty-list structure, but the `page >= total_pages`
comparison uses the fixed count captured before the loop. -/
def pagingAuxFixed (fetch : Nat → PageData) (totalPages : Nat) :
    Nat → Nat → List Nat → Option (List Nat × Nat)
  | 0, _, _ => none
  | Nat.succ fuel, page, seen =>
      let pd := fetch page
      if pd.list.isEmpty then some (seen, page)
      else
        let seen2 := dedupAppend seen pd.list
        if totalPages ≤ page then some (seen2, page)
        else pagingAuxFixed fetch totalPages fuel (page + 1) seen2

/-- `scrape_all`'s loop from page 1, with `total_pages` taken from the
pre-loop fetch of page 1 (scraper.py lines 422-424). -/
def pagingLoopAll (fetch : Nat → PageData) (fuel : Nat) : Option (List Nat × Nat) :=
  pagingAuxFixed fetch (fetch 1).totalPage fuel 1 []

/-- Outcome of the HTTP GET inside `download_image`: transport error, or a
response with a status code and (fully buffered) body bytes. -/
inductive HttpResult where
  | transportError : HttpResult
  | resp : Nat → List Nat → HttpResult
deriving DecidableEq

/-- Local filesystem as path/content pairs. -/
abbrev FS := List (String × List Nat)

def fsWrite : FS → String → List Nat → FS
  | [], p, content => [(p, content)]
  | (q, old) :: rest, p, content =>
      if q == p then (q, content) :: rest else (q, old) :: fsWrite rest p content

/-- `download_image` (scraper.py lines 111-121): any exception (network
failure, non-2xx status via `raise_for_status`, directory/write failure —
the latter modelled by `writeOk = false`) is caught and reported as `false`;
the body is fully buffered, so a failure leaves the filesystem unchanged. -/
def download_image (r : HttpResult) (writeOk : Bool) (fs : FS) (path : String) : FS × Bool :=
  match r with
  | HttpResult.transportError => (fs, false)
  | HttpResult.resp status content =>
      if status < 200 ∨ 300 ≤ status then (fs, false)
      else if writeOk then (fsWrite fs path content, true)
      else (fs, false)

/-- One entry of a search-result page (`cardImg` and remote `id`). -/
structure RemoteItem where
  id : Nat
  cardImg : String
deriving DecidableEq

/-- The remote service and image store as the by-identifier run sees them:
page-1 search results per query, detail payload per remote id, and the
success of each image download. -/
structure ScrapeEnv where
  search : String → List RemoteItem
  detail : Nat → Option RawInfo
  download : String → Bool

/-- `img_number.split("_")[0] if img_number else None` (scraper.py line 290). -/
def baseNumberOf (img_url : String) : Option String :=
  (extract_card_number_from_img img_url).map
    (fun s => ⟨s.data.takeWhile (fun c => c ≠ '_')⟩)

/-- `if base_number and base_number == card_no` (scraper.py line 292),
including Python truthiness of the empty string. -/
def itemMatches (item : RemoteItem) (card_no : String) : Bool :=
  match baseNumberOf item.cardImg with
  | some b => !(b == "") && b == card_no
  | none => false

/-- `img_url.rsplit(".", 1)[-1] if "." in img_url else "png"`. -/
def extOf (url : String) : String :=
  if '.' ∈ url.data then ⟨afterLastChar '.' url.data⟩ else "png"

/-- What scanning one identifier's search results produces: the database
after the scan, whether a match was found, the found-tally increment, the
remote ids promoted to a detail fetch, and the number of upserts executed. -/
structure ItemOutcome where
  db : DB
  found : Bool
  foundInc : Nat
  fetches : List Nat
  upserts : Nat
deriving DecidableEq

/-- The `for item in card_list` scan of `scrape_by_card_numbers` (scraper.py
lines 286-315): the first item whose extracted base number equals the
request is promoted to a detail fetch and the scan breaks; a valid detail is
mapped, its image downloaded, and the record upserted. -/
def processItems (env : ScrapeEnv) (card_no : String) (db : DB) :
    List RemoteItem → ItemOutcome
  | [] => ⟨db, false, 0, [], 0⟩
  | item :: rest =>
      if itemMatches item card_no then
        match env.detail item.id with
        | some info =>
            let card_data := map_card_detail info
            let img_filename := card_data.card_number ++ "." ++ extOf item.cardImg
            let downloaded := env.download item.cardImg
            let image_local :=
              if downloaded then some ("cards/" ++ img_filename) else none
            ⟨(save_card_to_db db card_data image_local).1, true, 1, [item.id], 1⟩
        | none => ⟨db, true, 0, [item.id], 0⟩
      else processItems env card_no db rest

/-- The session state of `scrape_by_card_numbers`: database plus the
`found_count` / `not_found` summary and instrumentation for the detail
fetches and upserts performed. -/
structure RunState where
  db : DB
  found_count : Nat
  not_found : List String
  fetches : List Nat
  upserts : Nat
deriving DecidableEq

/-- One iteration of the `for card_no in card_numbers` loop (scraper.py
lines 270-321): normalize, search, and either record not-found (empty page
or no exact match) or run the detail pipeline on the first match. -/
def runOne (env : ScrapeEnv) (st : RunState) (raw : String) : RunState :=
  let card_no := pyStrip (pyUpper raw)
  let card_list := env.search card_no
  if card_list.isEmpty then
    { st with not_found := st.not_found ++ [card_no] }
  else
    let o := processItems env card_no st.db card_list
    let st2 : RunState :=
      ⟨o.db, st.found_count + o.foundInc, st.not_found,
        st.fetches ++ o.fetches, st.upserts + o.upserts⟩
    if o.found then st2 else { st2 with not_found := st2.not_found ++ [card_no] }

/-- `scrape_by_card_numbers` (scraper.py lines 256-328) over an initial
database: the final session state and the reported total. -/
def scrape_by_card_numbers (env : ScrapeEnv) (card_numbers : List String)
    (db0 : DB) : RunState × Nat :=
  (card_numbers.foldl (runOne env) ⟨db0, 0, [], [], 0⟩, card_numbers.length)

/-- The remote service as the by-set item pipeline sees it. -/
structure SetItemEnv where
  detail : Nat → Option RawInfo
  download : String → Bool

structure SetStepResult where
  db : DB
  seen : List Nat
  processedInc : Nat
deriving DecidableEq

/-- The per-item pipeline of `scrape_by_set` (scraper.py lines 369-399):
skip already-seen ids, fetch detail, map, build the (variant-aware) image
filename, download, and upsert — with no local path when the download fails. -/
def processSetItem (env : SetItemEnv) (db : DB) (seen : List Nat)
    (item : RemoteItem) : SetStepResult :=
  if item.id ∈ seen then ⟨db, seen, 0⟩
  else
    let seen2 := seen ++ [item.id]
    match env.detail item.id with
    | none => ⟨db, seen2, 0⟩
    | some info =>
        let card_data := map_card_detail info
        let ext := extOf item.cardImg
        let img_filename :=
          match extract_card_number_from_img item.cardImg with
          | some n => if '_' ∈ n.data then n ++ "." ++ ext
                      else card_data.card_number ++ "." ++ ext
          | none => card_data.card_number ++ "." ++ ext
        let downloaded := env.download item.cardImg
        let image_local :=
          if downloaded then some ("cards/" ++ img_filename) else none
        ⟨(save_card_to_db db card_data image_local).1, seen2, 1⟩

/-- Stored row used to witness claim C4: an existing card with
`power = 5000` and an old effect text. -/
def storedPow5000 : StoredCard :=
  ⟨"EB04-001", "旧名", "旧名", "角色", "红", some 3, some 5000, some 1000, none,
    "斩", "旧效果", "", "特征", "R", "EB04", "http://old", none⟩

/-- Incoming mapped record used to witness claim C4: `power = None` together
with a new effect text. -/
def incomingNoPower : MappedCard :=
  ⟨"EB04-001", "新名", "新名", "角色", "红", some 3, none, some 1000, none,
    "斩", "新效果", "", "特征", "R", "EB04", "http://new"⟩

/-- Raw payload with all six text fields absent, leaving the rest of the
payload arbitrary. -/
def stripTextFields (info : RawInfo) : RawInfo :=
  { info with
    cardName := none
    cardColor := none
    cardTextDesc := none
    cardTrigger := none
    cardFeatures := none
    cardRarity := none }

/-- A leader-kind detail record whose shared numeric field is the literal
placeholder, so it parses to absent. -/
def infoLeaderDash : RawInfo :=
  ⟨none, none, some "领袖", PyVal.vStr "-", PyVal.vNone, PyVal.vNone,
    none, none, none, none, none, none, none⟩

/-- A leader-kind detail record with a parseable numeric field. -/
def infoLeaderFour : RawInfo :=
  ⟨some "OP01-001", none, some "领袖", PyVal.vStr "4", PyVal.vNone, PyVal.vNone,
    some "蒙奇·D·路飞", some "红", none, none, none, some "L", none⟩

/-- Page sequence where page 3 is empty while `totalPage = 5`. -/
def fetchEmptyAt3 : Nat → PageData := fun p =>
  if p = 1 then ⟨[1, 2], 5⟩ else if p = 2 then ⟨[3, 4], 5⟩ else ⟨[], 5⟩

/-- Claim C5, counterexample environment: the only search hit for
`EB04-001` matches the request, but its detail fetch returns `Absent`;
every other query returns no results. -/
def envAbsentDetail : ScrapeEnv :=
  ⟨fun no => if no = "EB04-001"
     then [⟨7, "https://source.windoent.com/OnePiecePc/Picture/1769764571457EB04-001.png"⟩]
     else [],
   fun _ => none,
   fun _ => false⟩

/-- The image URL of the claim C1 scenario. -/
def urlEB04 : String :=
  "https://source.windoent.com/OnePiecePc/Picture/1769764571457EB04-001.png"

/-- A valid detail payload for `EB04-001`. -/
def infoEB04 : RawInfo :=
  ⟨some "EB04-001", some ["斩"], some "角色", PyVal.vStr "4", PyVal.vStr "5000",
    PyVal.vStr "1000", some "测试卡", some "红", some "效果文本", some "", some "特征",
    some "R", some urlEB04⟩

/-- Claim C1 environment: searching `EB04-001` yields one item whose image
URL decodes to `EB04-001`, its detail fetch succeeds, and the image
downloads successfully. -/
def envEB04 : ScrapeEnv :=
  ⟨fun no => if no = "EB04-001" then [⟨7, urlEB04⟩] else [],
   fun i => if i = 7 then some infoEB04 else none,
   fun _ => true⟩

/-- The row the claim C1 run is expected to store. -/
def storedEB04 : StoredCard :=
  ⟨"EB04-001", "测试卡", "测试卡", "角色", "红", some 4, some 5000, some 1000, none,
    "斩", "效果文本", "", "特征", "R", "EB04", urlEB04, some "cards/EB04-001.png"⟩

/-- Remote side used to witness claim C9's pipeline clause: detail id 7
resolves, but every download fails. -/
def envSetDlFail : SetItemEnv :=
  ⟨fun i => if i = 7 then some infoEB04 else none, fun _ => false⟩

/-- Environment whose every search returns a non-empty page whose single
item decodes to `EB04-001`, so any other request finds no exact match. -/
def envNoExactMatch : ScrapeEnv :=
  ⟨fun _ => [⟨9, urlEB04⟩], fun _ => none, fun _ => false⟩

theorem updOpt_updOpt (a b : Option Int) : updOpt a (updOpt a b) = updOpt a b := by
  cases a <;> rfl

theorem updOpt_self (a : Option Int) : updOpt a a = a := by
  cases a <;> rfl

theorem applyUpdate_card_number (c : StoredCard) (cd : MappedCard) (il : Option String) :
    (applyUpdate c cd il).card_number = cd.card_number := rfl

theorem applyUpdate_applyUpdate (c : StoredCard) (cd : MappedCard) (il : Option String) :
    applyUpdate (applyUpdate c cd il) cd il = applyUpdate c cd il := by
  simp only [applyUpdate, updOpt_updOpt]
  by_cases h : strTruthy il <;> simp [h]

theorem applyUpdate_newStored (cd : MappedCard) (il : Option String) :
    applyUpdate (newStored cd il) cd il = newStored cd il := by
  simp only [applyUpdate, newStored, updOpt_self]
  by_cases h : strTruthy il <;> simp [h]

theorem dbFind_nil (key : String) : dbFind [] key = none := rfl

theorem dbFind_cons (c : StoredCard) (rest : DB) (key : String) :
    dbFind (c :: rest) key =
      if c.card_number == key then some c else dbFind rest key := by
  by_cases h : c.card_number == key <;>
    simp [dbFind, List.find?_cons, h]

theorem dbFind_append_none (db1 db2 : DB) (key : String)
    (h : dbFind db1 key = none) :
    dbFind (db1 ++ db2) key = dbFind db2 key := by
  induction db1 with
  | nil => rfl
  | cons c rest ih =>
      rw [dbFind_cons] at h
      by_cases hc : c.card_number == key
      · simp [hc] at h
      · rw [List.cons_append, dbFind_cons, if_neg hc]
        exact ih (by simpa [hc] using h)

theorem dbFind_dbUpdate (db : DB) (cd : MappedCard) (il : Option String) :
    dbFind (dbUpdate db cd il) cd.card_number =
      (dbFind db cd.card_number).map (fun c => applyUpdate c cd il) := by
  induction db with
  | nil => rfl
  | cons c rest ih =>
      by_cases hc : c.card_number == cd.card_number
      · rw [dbUpdate, if_pos hc, dbFind_cons, dbFind_cons, if_pos hc,
          if_pos (by simp [applyUpdate_card_number])]
        rfl
      · rw [dbUpdate, if_neg hc, dbFind_cons, dbFind_cons, if_neg hc, if_neg hc]
        exact ih

theorem dbUpdate_idem (db : DB) (cd : MappedCard) (il : Option String) :
    dbUpdate (dbUpdate db cd il) cd il = dbUpdate db cd il := by
  induction db with
  | nil => rfl
  | cons c rest ih =>
      by_cases hc : c.card_number == cd.card_number
      · rw [dbUpdate, if_pos hc, dbUpdate,
          if_pos (by simp [applyUpdate_card_number]), applyUpdate_applyUpdate]
      · rw [dbUpdate, if_neg hc, dbUpdate, if_neg hc, ih]

theorem dbUpdate_append_none (db1 db2 : DB) (cd : MappedCard) (il : Option String)
    (h : dbFind db1 cd.card_number = none) :
    dbUpdate (db1 ++ db2) cd il = db1 ++ dbUpdate db2 cd il := by
  induction db1 with
  | nil => rfl
  | cons c rest ih =>
      rw [dbFind_cons] at h
      by_cases hc : c.card_number == cd.card_number
      · simp [hc] at h
      · rw [List.cons_append, dbUpdate, if_neg hc, List.cons_append,
          ih (by simpa [hc] using h)]

/-- Claim C3: the upsert is idempotent — applying the same mapped record
twice yields the same stored state as applying it once; the first
application returns Created exactly when the key is absent, and the second
application always returns Updated. -/
theorem save_card_to_db_idempotent (db : DB) (cd : MappedCard) (il : Option String) :
    (save_card_to_db (save_card_to_db db cd il).1 cd il).1 = (save_card_to_db db cd il).1 ∧
    (save_card_to_db db cd il).2 = (dbFind db cd.card_number).isNone ∧
    (save_card_to_db (save_card_to_db db cd il).1 cd il).2 = false := by
  cases h : dbFind db cd.card_number with
  | none =>
      have hfind : dbFind (db ++ [newStored cd il]) cd.card_number =
          some (newStored cd il) := by
        rw [dbFind_append_none db _ _ h, dbFind_cons]
        simp [newStored]
      refine ⟨?_, by simp [save_card_to_db, h], by simp [save_card_to_db, h, hfind]⟩
      simp only [save_card_to_db, h, hfind]
      rw [dbUpdate_append_none db _ cd il h]
      simp only [dbUpdate]
      rw [if_pos (by simp [newStored]), applyUpdate_newStored]
  | some c =>
      have hfind : dbFind (dbUpdate db cd il) cd.card_number =
          some (applyUpdate c cd il) := by
        rw [dbFind_dbUpdate, h]; rfl
      refine ⟨?_, by simp [save_card_to_db, h], by simp [save_card_to_db, h, hfind]⟩
      simp only [save_card_to_db, h, hfind]
      exact dbUpdate_idem db cd il

/-- Claim C4: on upsert of an existing key, every non-null incoming field
overwrites and every null incoming field leaves the stored value unchanged;
the updated row is the pointwise `applyUpdate` of the stored row. -/
theorem save_card_to_db_partial_update (db : DB) (cd : MappedCard)
    (il : Option String) (c : StoredCard)
    (h : dbFind db cd.card_number = some c) :
    dbFind (save_card_to_db db cd il).1 cd.card_number = some (applyUpdate c cd il) ∧
    (save_card_to_db db cd il).2 = false ∧
    (cd.power = none → (applyUpdate c cd il).power = c.power) ∧
    (∀ v, cd.power = some v → (applyUpdate c cd il).power = some v) ∧
    (cd.cost = none → (applyUpdate c cd il).cost = c.cost) ∧
    (∀ v, cd.cost = some v → (applyUpdate c cd il).cost = some v) ∧
    (cd.counter = none → (applyUpdate c cd il).counter = c.counter) ∧
    (∀ v, cd.counter = some v → (applyUpdate c cd il).counter = some v) ∧
    (cd.life = none → (applyUpdate c cd il).life = c.life) ∧
    (∀ v, cd.life = some v → (applyUpdate c cd il).life = some v) ∧
    (applyUpdate c cd il).effect = cd.effect ∧
    (applyUpdate c cd il).name = cd.name := by
  refine ⟨?_, by simp [save_card_to_db, h], ?_, ?_, ?_, ?_, ?_, ?_, ?_, ?_, rfl, rfl⟩
  · simp only [save_card_to_db, h]
    rw [dbFind_dbUpdate, h]
    rfl
  all_goals
    first
    | (intro hn; simp [applyUpdate, updOpt, hn])
    | (intro v hv; simp [applyUpdate, updOpt, hv])

theorem save_card_to_db_partial_update_witness :
    dbFind (save_card_to_db [storedPow5000] incomingNoPower none).1 "EB04-001" =
      some (applyUpdate storedPow5000 incomingNoPower none) ∧
    (applyUpdate storedPow5000 incomingNoPower none).power = some 5000 ∧
    (applyUpdate storedPow5000 incomingNoPower none).effect = "新效果" := by
  have h := save_card_to_db_partial_update [storedPow5000] incomingNoPower none
    storedPow5000 (by decide)
  exact ⟨h.1, by decide, by decide⟩

/-- Claim C10: text fields absent from the raw detail payload are mapped to
`""` rather than `None`, and — since the upsert treats any non-`None` value
as supplied — updating an existing row with such a record overwrites the
previously stored values with `""`. -/
theorem map_card_detail_absent_text_overwrites (info : RawInfo)
    (c : StoredCard) (il : Option String) :
    (map_card_detail (stripTextFields info)).name = "" ∧
    (map_card_detail (stripTextFields info)).color = "" ∧
    (map_card_detail (stripTextFields info)).effect = "" ∧
    (map_card_detail (stripTextFields info)).trigger = "" ∧
    (map_card_detail (stripTextFields info)).trait = "" ∧
    (map_card_detail (stripTextFields info)).rarity = "" ∧
    (save_card_to_db [{ c with card_number := (map_card_detail (stripTextFields info)).card_number }]
        (map_card_detail (stripTextFields info)) il).2 = false ∧
    dbFind (save_card_to_db [{ c with card_number := (map_card_detail (stripTextFields info)).card_number }]
        (map_card_detail (stripTextFields info)) il).1
        (map_card_detail (stripTextFields info)).card_number =
      some (applyUpdate { c with card_number := (map_card_detail (stripTextFields info)).card_number }
        (map_card_detail (stripTextFields info)) il) ∧
    (applyUpdate { c with card_number := (map_card_detail (stripTextFields info)).card_number }
        (map_card_detail (stripTextFields info)) il).effect = "" ∧
    (applyUpdate { c with card_number := (map_card_detail (stripTextFields info)).card_number }
        (map_card_detail (stripTextFields info)) il).name = "" := by
  have hfind : dbFind [{ c with card_number := (map_card_detail (stripTextFields info)).card_number }]
      (map_card_detail (stripTextFields info)).card_number =
      some { c with card_number := (map_card_detail (stripTextFields info)).card_number } := by
    rw [dbFind_cons]
    simp
  refine ⟨rfl, rfl, rfl, rfl, rfl, rfl, by simp [save_card_to_db, hfind], ?_, rfl, rfl⟩
  simp only [save_card_to_db, hfind]
  rw [dbFind_dbUpdate, hfind]
  rfl

/-- Claim C2, counterexample: on a leader record whose raw numeric field is
`"-"`, `map_card_detail` populates neither `cost` nor `life`, so it does not
populate exactly one of them for every raw detail record. -/
theorem map_card_detail_not_exactly_one :
    (map_card_detail infoLeaderDash).cost = none ∧
    (map_card_detail infoLeaderDash).life = none ∧
    ¬((map_card_detail infoLeaderDash).cost.isSome ∨
      (map_card_detail infoLeaderDash).life.isSome) := by decide

/-- Claim C2, amended: `map_card_detail` routes the shared numeric field to
`life` iff the raw kind equals the leader label and to `cost` otherwise,
leaving the other slot unset — so it populates at most one of the two, and
exactly one whenever the shared field parses to an integer. -/
theorem map_card_detail_cost_life_routing (info : RawInfo) :
    (info.cardType.getD "" = "领袖" →
      (map_card_detail info).life = parse_int_safe info.cardLife ∧
      (map_card_detail info).cost = none) ∧
    (info.cardType.getD "" ≠ "领袖" →
      (map_card_detail info).cost = parse_int_safe info.cardLife ∧
      (map_card_detail info).life = none) ∧
    ((map_card_detail info).cost = none ∨ (map_card_detail info).life = none) := by
  by_cases h : info.cardType.getD "" = "领袖" <;>
    simp [map_card_detail, h]

theorem map_card_detail_cost_life_routing_witness :
    (map_card_detail infoLeaderFour).life = parse_int_safe infoLeaderFour.cardLife ∧
    (map_card_detail infoLeaderFour).cost = none :=
  (map_card_detail_cost_life_routing infoLeaderFour).1 (by decide)

/-- Claim C7: numeric-field parsing is total and lenient — `None`, the
literal `"-"`, the empty string, and any string on which Python `int` fails
all map to absent; a genuine integer is passed through; and
`map_card_detail` feeds `power` and `counter` through the same parser. -/
theorem parse_int_safe_total_lenient :
    parse_int_safe PyVal.vNone = none ∧
    parse_int_safe (PyVal.vStr "-") = none ∧
    parse_int_safe (PyVal.vStr "") = none ∧
    parse_int_safe (PyVal.vStr "abc") = none ∧
    (∀ s : String, pyStrToInt s = none → parse_int_safe (PyVal.vStr s) = none) ∧
    (∀ n : Int, parse_int_safe (PyVal.vInt n) = some n) ∧
    (∀ info : RawInfo,
      (map_card_detail info).power = parse_int_safe info.cardPower ∧
      (map_card_detail info).counter = parse_int_safe info.cardAttack) := by
  refine ⟨rfl, by decide, by decide, by decide, ?_, fun n => rfl, fun info => ⟨rfl, rfl⟩⟩
  intro s h
  by_cases hs : s = "-" ∨ s = "" <;> simp [parse_int_safe, hs, h]

theorem parse_int_safe_total_lenient_witness :
    pyStrToInt "12x" = none ∧ parse_int_safe (PyVal.vStr "12x") = none :=
  ⟨by decide, parse_int_safe_total_lenient.2.2.2.2.1 "12x" (by decide)⟩

theorem filter_ne_comm (a b : Char) (l : List Char) :
    (l.filter (fun x => x ≠ b)).filter (fun x => x ≠ a) =
      (l.filter (fun x => x ≠ a)).filter (fun x => x ≠ b) := by
  simp only [List.filter_filter]
  congr 1
  funext x
  exact Bool.and_comm _ _

theorem filter_ne_idem (a : Char) (l : List Char) :
    (l.filter (fun x => x ≠ a)).filter (fun x => x ≠ a) =
      l.filter (fun x => x ≠ a) := by
  simp only [List.filter_filter]
  congr 1
  funext x
  exact Bool.and_self _

theorem pyDel_comm (a b : Char) (s : String) :
    pyDel a (pyDel b s) = pyDel b (pyDel a s) := by
  simp only [pyDel]
  exact congrArg String.mk (filter_ne_comm a b s.data)

theorem pyDel_idem (a : Char) (s : String) :
    pyDel a (pyDel a s) = pyDel a s := by
  simp only [pyDel]
  exact congrArg String.mk (filter_ne_idem a s.data)

/-- The extra `replace("C","").replace("-","")` fallback in `find_set_name`
is subsumed by the symmetric normalized comparison. -/
theorem third_implies_first (inner code_upper : String)
    (h : pyDel '-' (pyDel 'C' inner) = pyDel '-' code_upper) :
    pyDel 'C' (pyDel '-' inner) = pyDel 'C' (pyDel '-' code_upper) := by
  rw [pyDel_comm 'C' '-' inner, ← h, pyDel_comm 'C' '-' (pyDel 'C' inner),
    pyDel_idem 'C' inner]

theorem specEntryMatch_none (code_upper name : String)
    (hb : bracketCode name = none) : specEntryMatch code_upper name = false := by
  simp only [specEntryMatch]
  rw [hb]

theorem specEntryMatch_some (code_upper name inner : String)
    (hb : bracketCode name = some inner) :
    specEntryMatch code_upper name =
      (pyUpper inner == code_upper
        || pyDel 'C' (pyDel '-' inner) == pyDel 'C' (pyDel '-' code_upper)) := by
  simp only [specEntryMatch]
  rw [hb]

theorem findLoop_cons_none (s : SetEntry) (rest : List SetEntry)
    (code_upper : String) (hb : bracketCode s.name = none) :
    findLoop (s :: rest) code_upper = findLoop rest code_upper := by
  simp only [findLoop]
  rw [hb]

theorem findLoop_cons_some (s : SetEntry) (rest : List SetEntry)
    (code_upper inner : String) (hb : bracketCode s.name = some inner) :
    findLoop (s :: rest) code_upper =
      (if (pyDel 'C' (pyDel '-' inner) == pyDel 'C' (pyDel '-' code_upper)
          || pyUpper inner == code_upper) = true then some s.name
       else if (pyDel '-' (pyDel 'C' inner) == pyDel '-' code_upper) = true
       then some s.name
       else findLoop rest code_upper) := by
  simp only [findLoop]
  rw [hb]

theorem findLoop_eq_spec (sets : List SetEntry) (code_upper : String) :
    findLoop sets code_upper =
      (sets.find? (fun s => specEntryMatch code_upper s.name)).map SetEntry.name := by
  induction sets with
  | nil => rfl
  | cons s rest ih =>
      cases hb : bracketCode s.name with
      | none =>
          have hm := specEntryMatch_none code_upper s.name hb
          rw [findLoop_cons_none s rest code_upper hb,
            List.find?_cons_of_neg _ (by simp [hm])]
          exact ih
      | some inner =>
          have hm := specEntryMatch_some code_upper s.name inner hb
          rw [findLoop_cons_some s rest code_upper inner hb]
          by_cases h1 : (pyDel 'C' (pyDel '-' inner) == pyDel 'C' (pyDel '-' code_upper)
              || pyUpper inner == code_upper) = true
          · rw [if_pos h1, List.find?_cons_of_pos _ (by rw [hm]; rw [Bool.or_comm] at h1; exact h1)]
            rfl
          · rw [if_neg h1]
            have h3 : (pyDel '-' (pyDel 'C' inner) == pyDel '-' code_upper) = false := by
              by_contra hc
              have heq : pyDel '-' (pyDel 'C' inner) = pyDel '-' code_upper := by
                have := Bool.not_eq_false _ |>.mp hc
                exact eq_of_beq this
              have hfirst := third_implies_first inner code_upper heq
              have : (pyDel 'C' (pyDel '-' inner) == pyDel 'C' (pyDel '-' code_upper)) = true := by
                exact beq_iff_eq.mpr hfirst
              simp [this] at h1
            rw [if_neg (by simp [h3]), List.find?_cons_of_neg _ (by
              simp only [hm, Bool.or_eq_true, beq_iff_eq, not_or] at h1 ⊢
              exact ⟨h1.2, h1.1⟩)]
            exact ih

/-- Claim C8: `find_set_name` extracts the bracketed code, normalizes both
codes by removing hyphens and the letter `C`, and returns the first set
matching exactly or after normalization; the `EBC-04` bracket resolves the
request `EB04`, and a request matching no bracket code returns `None`. -/
theorem find_set_name_matches_spec :
    (∀ (sets : List SetEntry) (set_code : String),
      find_set_name sets set_code = matchSetName_spec sets set_code) ∧
    find_set_name [⟨"特别补充包【EBC-04】艾格赫德危机"⟩] "EB04" =
      some "特别补充包【EBC-04】艾格赫德危机" ∧
    find_set_name [⟨"特别补充包【EBC-04】艾格赫德危机"⟩] "ZZ99" = none := by
  refine ⟨fun sets code => findLoop_eq_spec sets (pyUpper code), by decide, by decide⟩

theorem pagingAux_succ (fetch : Nat → PageData) (f page : Nat) (seen : List Nat) :
    pagingAux fetch (Nat.succ f) page seen =
      (if (fetch page).list.isEmpty then some (seen, page)
       else if (fetch page).totalPage ≤ page
       then some (dedupAppend seen (fetch page).list, page)
       else pagingAux fetch f (page + 1) (dedupAppend seen (fetch page).list)) := rfl

theorem pagingAux_stops (fetch : Nat → PageData) :
    ∀ (k q fuel : Nat) (seen : List Nat),
      (∀ j, j < k → stopAt fetch (q + j) = false) →
      stopAt fetch (q + k) = true →
      k < fuel →
      ∃ ids, pagingAux fetch fuel q seen = some (ids, q + k) := by
  intro k
  induction k with
  | zero =>
      intro q fuel seen _ hstop hfuel
      cases fuel with
      | zero => omega
      | succ f =>
          rw [Nat.add_zero] at hstop
          rw [Nat.add_zero]
          by_cases he : (fetch q).list.isEmpty
          · exact ⟨seen, by rw [pagingAux_succ, if_pos he, Nat.add_zero]⟩
          · have hle : (fetch q).totalPage ≤ q := by
              simp only [stopAt, Bool.or_eq_true] at hstop
              rcases hstop with h | h
              · exact absurd h he
              · exact of_decide_eq_true h
            exact ⟨dedupAppend seen (fetch q).list,
              by rw [pagingAux_succ, if_neg he, if_pos hle, Nat.add_zero]⟩
  | succ k ih =>
      intro q fuel seen hlt hstop hfuel
      have h0 : stopAt fetch q = false := by
        have := hlt 0 (by omega)
        simpa using this
      have he : ¬(fetch q).list.isEmpty := by
        simp only [stopAt, Bool.or_eq_false_iff] at h0
        simp [h0.1]
      have hgt : ¬(fetch q).totalPage ≤ q := by
        simp only [stopAt, Bool.or_eq_false_iff] at h0
        exact of_decide_eq_false h0.2
      cases fuel with
      | zero => omega
      | succ f =>
          rw [pagingAux_succ, if_neg he, if_neg hgt]
          have hrec := ih (q + 1) f (dedupAppend seen (fetch q).list)
            (fun j hj => by
              have := hlt (j + 1) (by omega)
              rw [show q + 1 + j = q + (j + 1) by omega]
              exact this)
            (by rw [show q + 1 + k = q + (k + 1) by omega]; exact hstop)
            (by omega)
          obtain ⟨ids, hids⟩ := hrec
          rw [show q + 1 + k = q + (k + 1) by omega] at hids
          exact ⟨ids, hids⟩

/-- Claim C6: the shared by-set/all paging loop halts exactly at the first
page whose item list is empty or whose index has reached the reported total
page count, whichever comes first, given enough fuel to reach that page. -/
theorem pagingLoop_byset_halts (fetch : Nat → PageData) (p fuel : Nat)
    (hmin : ∀ q, q < p → 1 ≤ q → stopAt fetch q = false)
    (hstop : stopAt fetch p = true) (hp : 1 ≤ p) (hfuel : p ≤ fuel) :
    ∃ ids, pagingLoop fetch fuel = some (ids, p) := by
  have h := pagingAux_stops fetch (p - 1) 1 fuel []
    (fun j hj => hmin (1 + j) (by omega) (by omega))
    (by rw [show 1 + (p - 1) = p by omega]; exact hstop) (by omega)
  obtain ⟨ids, hids⟩ := h
  rw [show 1 + (p - 1) = p by omega] at hids
  exact ⟨ids, hids⟩

theorem pagingAuxFixed_succ (fetch : Nat → PageData) (tp f page : Nat)
    (seen : List Nat) :
    pagingAuxFixed fetch tp (Nat.succ f) page seen =
      (if (fetch page).list.isEmpty then some (seen, page)
       else if tp ≤ page
       then some (dedupAppend seen (fetch page).list, page)
       else pagingAuxFixed fetch tp f (page + 1) (dedupAppend seen (fetch page).list)) := rfl

theorem pagingAuxFixed_stops (fetch : Nat → PageData) (tp : Nat) :
    ∀ (k q fuel : Nat) (seen : List Nat),
      (∀ j, j < k → stopAtFixed fetch tp (q + j) = false) →
      stopAtFixed fetch tp (q + k) = true →
      k < fuel →
      ∃ ids, pagingAuxFixed fetch tp fuel q seen = some (ids, q + k) := by
  intro k
  induction k with
  | zero =>
      intro q fuel seen _ hstop hfuel
      cases fuel with
      | zero => omega
      | succ f =>
          rw [Nat.add_zero] at hstop
          rw [Nat.add_zero]
          by_cases he : (fetch q).list.isEmpty
          · exact ⟨seen, by rw [pagingAuxFixed_succ, if_pos he, Nat.add_zero]⟩
          · have hle : tp ≤ q := by
              simp only [stopAtFixed, Bool.or_eq_true] at hstop
              rcases hstop with h | h
              · exact absurd h he
              · exact of_decide_eq_true h
            exact ⟨dedupAppend seen (fetch q).list,
              by rw [pagingAuxFixed_succ, if_neg he, if_pos hle, Nat.add_zero]⟩
  | succ k ih =>
      intro q fuel seen hlt hstop hfuel
      have h0 : stopAtFixed fetch tp q = false := by
        have := hlt 0 (by omega)
        simpa using this
      have he : ¬(fetch q).list.isEmpty := by
        simp only [stopAtFixed, Bool.or_eq_false_iff] at h0
        simp [h0.1]
      have hgt : ¬tp ≤ q := by
        simp only [stopAtFixed, Bool.or_eq_false_iff] at h0
        exact of_decide_eq_false h0.2
      cases fuel with
      | zero => omega
      | succ f =>
          rw [pagingAuxFixed_succ, if_neg he, if_neg hgt]
          have hrec := ih (q + 1) f (dedupAppend seen (fetch q).list)
            (fun j hj => by
              have := hlt (j + 1) (by omega)
              rw [show q + 1 + j = q + (j + 1) by omega]
              exact this)
            (by rw [show q + 1 + k = q + (k + 1) by omega]; exact hstop)
            (by omega)
          obtain ⟨ids, hids⟩ := hrec
          rw [show q + 1 + k = q + (k + 1) by omega] at hids
          exact ⟨ids, hids⟩

theorem pagingLoopAll_halts (fetch : Nat → PageData) (p fuel : Nat)
    (hmin : ∀ q, q < p → 1 ≤ q → stopAtFixed fetch (fetch 1).totalPage q = false)
    (hstop : stopAtFixed fetch (fetch 1).totalPage p = true)
    (hp : 1 ≤ p) (hfuel : p ≤ fuel) :
    ∃ ids, pagingLoopAll fetch fuel = some (ids, p) := by
  have h := pagingAuxFixed_stops fetch (fetch 1).totalPage (p - 1) 1 fuel []
    (fun j hj => hmin (1 + j) (by omega) (by omega))
    (by rw [show 1 + (p - 1) = p by omega]; exact hstop) (by omega)
  obtain ⟨ids, hids⟩ := h
  rw [show 1 + (p - 1) = p by omega] at hids
  exact ⟨ids, hids⟩

/-- Claim C6: each paging loop halts at the first page satisfying its
halting test — for the by-set loop, an empty item list or the current
page's own reported total page count reached; for the full-catalog loop, an
empty item list or the total page count reported by the pre-loop page-1
fetch reached — whichever comes first, given fuel to reach that page. -/
theorem pagingLoop_halts_first :
    (∀ (fetch : Nat → PageData) (p fuel : Nat),
      (∀ q, q < p → 1 ≤ q → stopAt fetch q = false) →
      stopAt fetch p = true → 1 ≤ p → p ≤ fuel →
      ∃ ids, pagingLoop fetch fuel = some (ids, p)) ∧
    (∀ (fetch : Nat → PageData) (p fuel : Nat),
      (∀ q, q < p → 1 ≤ q → stopAtFixed fetch (fetch 1).totalPage q = false) →
      stopAtFixed fetch (fetch 1).totalPage p = true → 1 ≤ p → p ≤ fuel →
      ∃ ids, pagingLoopAll fetch fuel = some (ids, p)) :=
  ⟨pagingLoop_byset_halts, pagingLoopAll_halts⟩

theorem pagingLoop_halts_first_witness :
    (∃ ids, pagingLoop fetchEmptyAt3 10 = some (ids, 3)) ∧
    (∃ ids, pagingLoopAll fetchEmptyAt3 10 = some (ids, 3)) :=
  ⟨pagingLoop_halts_first.1 fetchEmptyAt3 3 10 (by decide) (by decide)
      (by decide) (by decide),
   pagingLoop_halts_first.2 fetchEmptyAt3 3 10 (by decide) (by decide)
      (by decide) (by decide)⟩

theorem processItems_cons (env : ScrapeEnv) (card_no : String) (db : DB)
    (item : RemoteItem) (rest : List RemoteItem) :
    processItems env card_no db (item :: rest) =
      (if itemMatches item card_no then
        match env.detail item.id with
        | some info =>
            let card_data := map_card_detail info
            let img_filename := card_data.card_number ++ "." ++ extOf item.cardImg
            let downloaded := env.download item.cardImg
            let image_local :=
              if downloaded then some ("cards/" ++ img_filename) else none
            ⟨(save_card_to_db db card_data image_local).1, true, 1, [item.id], 1⟩
        | none => ⟨db, true, 0, [item.id], 0⟩
      else processItems env card_no db rest) := rfl

theorem processItems_fetches_le_one (env : ScrapeEnv) (card_no : String)
    (db : DB) (items : List RemoteItem) :
    (processItems env card_no db items).fetches.length ≤ 1 := by
  induction items with
  | nil => simp [processItems]
  | cons item rest ih =>
      rw [processItems_cons]
      by_cases hm : itemMatches item card_no
      · rw [if_pos hm]
        cases env.detail item.id <;> simp
      · rw [if_neg hm]
        exact ih

theorem processItems_skip (env : ScrapeEnv) (card_no : String) (db : DB)
    (pre rest : List RemoteItem)
    (hpre : ∀ j ∈ pre, itemMatches j card_no = false) :
    processItems env card_no db (pre ++ rest) = processItems env card_no db rest := by
  induction pre with
  | nil => rfl
  | cons j pre ih =>
      rw [List.cons_append, processItems_cons,
        if_neg (by simp [hpre j (List.mem_cons_self j pre)]),
        ih (fun x hx => hpre x (List.mem_cons_of_mem j hx))]

theorem runOne_empty_search (env : ScrapeEnv) (st : RunState) (raw : String)
    (h : env.search (pyStrip (pyUpper raw)) = []) :
    runOne env st raw = { st with not_found := st.not_found ++ [pyStrip (pyUpper raw)] } := by
  simp only [runOne, h, List.isEmpty_nil, if_true]

theorem runOne_no_exact_match (env : ScrapeEnv) (st : RunState) (raw : String)
    (items : List RemoteItem)
    (hs : env.search (pyStrip (pyUpper raw)) = items) (hne : items ≠ [])
    (hall : ∀ j ∈ items, itemMatches j (pyStrip (pyUpper raw)) = false) :
    runOne env st raw = { st with not_found := st.not_found ++ [pyStrip (pyUpper raw)] } := by
  have hempty : items.isEmpty = false := by
    cases items with
    | nil => exact absurd rfl hne
    | cons a l => rfl
  have hpi : processItems env (pyStrip (pyUpper raw)) st.db items =
      ⟨st.db, false, 0, [], 0⟩ := by
    have h := processItems_skip env (pyStrip (pyUpper raw)) st.db items [] hall
    rw [List.append_nil] at h
    rw [h]
    rfl
  simp only [runOne, hs, hempty, Bool.false_eq_true, if_false, hpi]
  cases st
  simp

theorem runOne_match_absent (env : ScrapeEnv) (st : RunState) (raw : String)
    (pre post : List RemoteItem) (item : RemoteItem)
    (hs : env.search (pyStrip (pyUpper raw)) = pre ++ item :: post)
    (hpre : ∀ j ∈ pre, itemMatches j (pyStrip (pyUpper raw)) = false)
    (hm : itemMatches item (pyStrip (pyUpper raw)) = true)
    (hd : env.detail item.id = none) :
    runOne env st raw = { st with fetches := st.fetches ++ [item.id] } := by
  have hne : (pre ++ item :: post).isEmpty = false := by
    cases pre <;> rfl
  have hpi : processItems env (pyStrip (pyUpper raw)) st.db (pre ++ item :: post) =
      ⟨st.db, true, 0, [item.id], 0⟩ := by
    rw [processItems_skip env _ st.db pre _ hpre, processItems_cons, if_pos hm, hd]
  simp only [runOne, hs, hne, Bool.false_eq_true, if_false, hpi]
  cases st
  simp

/-- Claim C5, counterexample: in a run over `["EB04-001", "ZZ99-999"]`
against `envAbsentDetail`, the matched identifier `EB04-001` whose detail
fetch yields `Absent` is NOT recorded in the not-found list (only the
unmatched `ZZ99-999` is), although its detail fetch did happen — refuting
that both outcomes are recorded in the not-found list / tally. -/
theorem scrape_absent_detail_counterexample :
    (scrape_by_card_numbers envAbsentDetail ["EB04-001", "ZZ99-999"] []).1.not_found =
      ["ZZ99-999"] ∧
    ¬ "EB04-001" ∈ (scrape_by_card_numbers envAbsentDetail ["EB04-001", "ZZ99-999"] []).1.not_found ∧
    (scrape_by_card_numbers envAbsentDetail ["EB04-001", "ZZ99-999"] []).1.found_count = 0 ∧
    (scrape_by_card_numbers envAbsentDetail ["EB04-001", "ZZ99-999"] []).1.fetches = [7] ∧
    (scrape_by_card_numbers envAbsentDetail ["EB04-001", "ZZ99-999"] []).2 = 2 := by
  decide

/-- Claim C5, amended: an identifier with no matching catalog entry — an
empty search page, or a non-empty page none of whose items' base numbers
match the request — is appended to the not-found list and the run continues
with the next identifier; a matched identifier whose detail fetch yields
`Absent` is excluded from the found tally but is NOT appended to the
not-found list — the run likewise continues, the only state change being
the recorded detail fetch. -/
theorem scrape_notfound_amended (env : ScrapeEnv) (st : RunState) (raw : String) :
    (env.search (pyStrip (pyUpper raw)) = [] →
      runOne env st raw =
        { st with not_found := st.not_found ++ [pyStrip (pyUpper raw)] }) ∧
    (∀ (items : List RemoteItem),
      env.search (pyStrip (pyUpper raw)) = items → items ≠ [] →
      (∀ j ∈ items, itemMatches j (pyStrip (pyUpper raw)) = false) →
      runOne env st raw =
        { st with not_found := st.not_found ++ [pyStrip (pyUpper raw)] }) ∧
    (∀ (pre post : List RemoteItem) (item : RemoteItem),
      env.search (pyStrip (pyUpper raw)) = pre ++ item :: post →
      (∀ j ∈ pre, itemMatches j (pyStrip (pyUpper raw)) = false) →
      itemMatches item (pyStrip (pyUpper raw)) = true →
      env.detail item.id = none →
      runOne env st raw = { st with fetches := st.fetches ++ [item.id] }) :=
  ⟨runOne_empty_search env st raw,
   fun items hs hne hall =>
     runOne_no_exact_match env st raw items hs hne hall,
   fun pre post item hs hpre hm hd =>
     runOne_match_absent env st raw pre post item hs hpre hm hd⟩

theorem scrape_notfound_amended_witness :
    runOne envAbsentDetail ⟨[], 0, [], [], 0⟩ "ZZ99-999" = ⟨[], 0, ["ZZ99-999"], [], 0⟩ ∧
    runOne envNoExactMatch ⟨[], 0, [], [], 0⟩ "EB04-777" = ⟨[], 0, ["EB04-777"], [], 0⟩ ∧
    runOne envAbsentDetail ⟨[], 0, [], [], 0⟩ "EB04-001" = ⟨[], 0, [], [7], 0⟩ := by
  have h1 := (scrape_notfound_amended envAbsentDetail ⟨[], 0, [], [], 0⟩ "ZZ99-999").1
    (by decide)
  have h1b := (scrape_notfound_amended envNoExactMatch ⟨[], 0, [], [], 0⟩ "EB04-777").2.1
    [⟨9, urlEB04⟩] (by decide) (by decide) (by decide)
  have h2 := (scrape_notfound_amended envAbsentDetail ⟨[], 0, [], [], 0⟩ "EB04-001").2.2
    [] []
    ⟨7, "https://source.windoent.com/OnePiecePc/Picture/1769764571457EB04-001.png"⟩
    (by decide) (by decide) (by decide) (by decide)
  exact ⟨h1, h1b, h2⟩

/-- When the first matching item of the search page has a valid detail
payload, one identifier's iteration performs exactly one detail fetch and
one upsert and increments the found tally. -/
theorem runOne_match_found (env : ScrapeEnv) (st : RunState) (raw : String)
    (pre post : List RemoteItem) (item : RemoteItem) (info : RawInfo)
    (hs : env.search (pyStrip (pyUpper raw)) = pre ++ item :: post)
    (hpre : ∀ j ∈ pre, itemMatches j (pyStrip (pyUpper raw)) = false)
    (hm : itemMatches item (pyStrip (pyUpper raw)) = true)
    (hd : env.detail item.id = some info) :
    runOne env st raw =
      ⟨(save_card_to_db st.db (map_card_detail info)
          (if env.download item.cardImg
           then some ("cards/" ++ ((map_card_detail info).card_number ++ "." ++ extOf item.cardImg))
           else none)).1,
        st.found_count + 1, st.not_found, st.fetches ++ [item.id], st.upserts + 1⟩ := by
  have hne : (pre ++ item :: post).isEmpty = false := by
    cases pre <;> rfl
  have hpi : processItems env (pyStrip (pyUpper raw)) st.db (pre ++ item :: post) =
      ⟨(save_card_to_db st.db (map_card_detail info)
          (if env.download item.cardImg
           then some ("cards/" ++ ((map_card_detail info).card_number ++ "." ++ extOf item.cardImg))
           else none)).1, true, 1, [item.id], 1⟩ := by
    rw [processItems_skip env _ st.db pre _ hpre, processItems_cons, if_pos hm, hd]
  simp only [runOne, hs, hne, Bool.false_eq_true, if_false, hpi]
  simp

/-- Claim C1: the by-identifier run for `["EB04-001"]` against `envEB04`
performs exactly one upsert, stores one card with `card_number = "EB04-001"`
and `set_code = "EB04"`, reports found 1 of total 1 with nothing not-found;
in every environment at most one matching item per requested identifier is
promoted to a detail fetch, and whenever the first matching item of a
search page has a valid detail payload the run performs exactly one upsert
and one found-tally increment for that identifier. -/
theorem scrape_by_card_numbers_e2e :
    (scrape_by_card_numbers envEB04 ["EB04-001"] []).1 = ⟨[storedEB04], 1, [], [7], 1⟩ ∧
    (scrape_by_card_numbers envEB04 ["EB04-001"] []).2 = 1 ∧
    storedEB04.card_number = "EB04-001" ∧
    storedEB04.set_code = "EB04" ∧
    (∀ (env : ScrapeEnv) (card_no : String) (db : DB) (items : List RemoteItem),
      (processItems env card_no db items).fetches.length ≤ 1) ∧
    (∀ (env : ScrapeEnv) (st : RunState) (raw : String)
        (pre post : List RemoteItem) (item : RemoteItem) (info : RawInfo),
      env.search (pyStrip (pyUpper raw)) = pre ++ item :: post →
      (∀ j ∈ pre, itemMatches j (pyStrip (pyUpper raw)) = false) →
      itemMatches item (pyStrip (pyUpper raw)) = true →
      env.detail item.id = some info →
      runOne env st raw =
        ⟨(save_card_to_db st.db (map_card_detail info)
            (if env.download item.cardImg
             then some ("cards/" ++ ((map_card_detail info).card_number ++ "." ++ extOf item.cardImg))
             else none)).1,
          st.found_count + 1, st.not_found, st.fetches ++ [item.id], st.upserts + 1⟩) :=
  ⟨by decide, rfl, rfl, rfl, processItems_fetches_le_one,
   fun env st raw pre post item info hs hpre hm hd =>
     runOne_match_found env st raw pre post item info hs hpre hm hd⟩

theorem scrape_by_card_numbers_e2e_witness :
    runOne envEB04 ⟨[], 0, [], [], 0⟩ "EB04-001" = ⟨[storedEB04], 1, [], [7], 1⟩ := by
  have h := scrape_by_card_numbers_e2e.2.2.2.2.2 envEB04 ⟨[], 0, [], [], 0⟩ "EB04-001"
    [] [] ⟨7, urlEB04⟩ infoEB04 (by decide) (by decide) (by decide) (by decide)
  rw [h]
  decide

theorem processSetItem_download_failed (env : SetItemEnv) (db : DB)
    (seen : List Nat) (item : RemoteItem) (info : RawInfo)
    (hseen : item.id ∉ seen) (hd : env.detail item.id = some info)
    (hdl : env.download item.cardImg = false) :
    processSetItem env db seen item =
      ⟨(save_card_to_db db (map_card_detail info) none).1, seen ++ [item.id], 1⟩ := by
  simp only [processSetItem, hd, hdl]
  rw [if_neg (by simpa using hseen)]
  simp

/-- Claim C9: `download_image` only reports success or failure — on a
transport error, a non-2xx status, or a write failure it returns `false`
and leaves the filesystem unchanged (the body is buffered before the single
write, so no partial file exists); on success it performs exactly the one
write.  And in the per-item pipeline, a failed download still upserts the
card record, with no local image path supplied. -/
theorem download_image_safe :
    (∀ (r : HttpResult) (w : Bool) (fs : FS) (p : String),
      ((download_image r w fs p).2 = false → (download_image r w fs p).1 = fs) ∧
      (r = HttpResult.transportError → (download_image r w fs p).2 = false) ∧
      (∀ status content, r = HttpResult.resp status content →
        status < 200 ∨ 300 ≤ status → (download_image r w fs p).2 = false) ∧
      (∀ status content, r = HttpResult.resp status content →
        200 ≤ status → status < 300 → w = true →
        download_image r w fs p = (fsWrite fs p content, true))) ∧
    (∀ (env : SetItemEnv) (db : DB) (seen : List Nat) (item : RemoteItem)
        (info : RawInfo),
      item.id ∉ seen → env.detail item.id = some info →
      env.download item.cardImg = false →
      processSetItem env db seen item =
        ⟨(save_card_to_db db (map_card_detail info) none).1, seen ++ [item.id], 1⟩) := by
  constructor
  · intro r w fs p
    refine ⟨?_, ?_, ?_, ?_⟩
    · intro hf
      cases r with
      | transportError => rfl
      | resp status content =>
          by_cases hs : status < 200 ∨ 300 ≤ status
          · simp [download_image, hs]
          · by_cases hw : w
            · simp [download_image, hs, hw] at hf
            · simp [download_image, hs, hw]
    · intro hr
      subst hr
      rfl
    · intro status content hr hs
      subst hr
      simp [download_image, hs]
    · intro status content hr h1 h2 hw
      subst hr
      subst hw
      have hs : ¬(status < 200 ∨ 300 ≤ status) := by omega
      simp [download_image, hs]
  · intro env db seen item info hseen hd hdl
    exact processSetItem_download_failed env db seen item info hseen hd hdl

theorem download_image_safe_witness :
    (download_image HttpResult.transportError true [] "cards/x.png").2 = false ∧
    (download_image (HttpResult.resp 404 [1]) true [] "cards/x.png").2 = false ∧
    download_image (HttpResult.resp 200 [9]) true [] "cards/x.png" =
      (fsWrite [] "cards/x.png" [9], true) ∧
    processSetItem envSetDlFail [] [] ⟨7, urlEB04⟩ =
      ⟨(save_card_to_db [] (map_card_detail infoEB04) none).1, [7], 1⟩ := by
  refine ⟨?_, ?_, ?_, ?_⟩
  · exact (download_image_safe.1 HttpResult.transportError true [] "cards/x.png").2.1 rfl
  · exact (download_image_safe.1 (HttpResult.resp 404 [1]) true [] "cards/x.png").2.2.1
      404 [1] rfl (by omega)
  · exact (download_image_safe.1 (HttpResult.resp 200 [9]) true [] "cards/x.png").2.2.2
      200 [9] rfl (by omega) (by omega) rfl
  · exact download_image_safe.2 envSetDlFail [] [] ⟨7, urlEB04⟩ infoEB04
      (by decide) (by decide) (by decide)
